import Mathlib

/-!
Shallow embedding of the page-alignment and navigation subsystem of the
ProblemBasedSelfStudy front end.

Embedded source:
* the book-view store (`useBookViewStore`): state record and the actions
  `open`, `close`, `setPage`, `openForVisualAlignment`;
* the `BookView` component: `checkPageExists` / `checkNavigationAvailability`
  probing, the jump handlers `handlePrevious5Pages` / `handleNext5Pages`
  together with the `disabled` gating of the -5/+5 buttons, and the
  visual-alignment `handleConfirm` flow;
* the legacy `BooksPage.tsx` call sites `handleVisualAlign` /
  `handleVisualAlignConfirm`.

Asynchronous collaborators (`bookApi.getChapters`, `bookApi.getPageImage`)
are passed in as explicit outcomes: a chapter fetch is an
`Except Unit (List ChapterItem)` and the page-image transport is an
`Int → Option Unit` (`none` = the call failed/page unavailable).
-/

/-- `Book` (types/api.ts), restricted to the fields the alignment and
navigation core reads or writes (`book_id`, `total_pages`,
`alignment_offset`) plus representative metadata carried along by the
object spread in `handleConfirm`; the remaining optional metadata fields
(keywords, summary, file name, toc bookkeeping) are never touched by this
subsystem. -/
structure Book where
  book_id : Nat
  book_name : Option String := none
  book_author : Option String := none
  total_pages : Option Nat := none
  alignment_offset : Option Int := none
  deriving DecidableEq, Repr

/-- `ChapterItem` (types/api.ts), restricted to the fields the core can
reach; only `start_page_number` is ever read. -/
structure ChapterItem where
  chapter_id : Nat := 0
  title : String := ""
  start_page_number : Int
  deriving DecidableEq, Repr

/-- JavaScript `x || 0` on an optional numeric field: `undefined` and `0`
are both falsy, so both map to `0`. -/
def jsOrZero (o : Option Int) : Int :=
  match o with
  | none => 0
  | some v => if v = 0 then 0 else v

theorem jsOrZero_some (k : Int) : jsOrZero (some k) = k := by
  by_cases h : k = 0 <;> simp [jsOrZero, h]

theorem jsOrZero_none : jsOrZero none = 0 := rfl

/-- `BookViewState` of `useBookViewStore`: exactly the three fields the
store declares (there is no alignment-mode or awaiting-confirmation field
in the stored state). -/
structure BookViewState where
  isOpen : Bool
  book : Option Book
  currentPage : Int
  deriving DecidableEq, Repr

/-- The store's initial state. -/
def initialBookViewState : BookViewState :=
  { isOpen := false, book := none, currentPage := 0 }

/-- Store action `open(book)`: replaces the whole state (previous state is
ignored by the `set`). Named `openBookView` because `open` is reserved in
Lean. -/
def openBookView (_s : BookViewState) (book : Book) : BookViewState :=
  { isOpen := true, book := some book, currentPage := 0 }

/-- Store action `close()`: replaces the whole state with the closed
state, whatever the previous state was. -/
def close (_s : BookViewState) : BookViewState :=
  { isOpen := false, book := none, currentPage := 0 }

/-- Store action `setPage(page)`. -/
def setPage (s : BookViewState) (page : Int) : BookViewState :=
  { s with currentPage := page }

/-- Store action `openForVisualAlignment(book)`: the state once the async
action has settled. It first sets the open state at
`book.alignment_offset || 0`, then on fetch success with a non-empty
chapter list moves to `chapters[0].start_page_number + (alignment_offset || 0)`,
on success with an empty list moves to `0`, and on fetch failure moves to
`book.alignment_offset || 0`. -/
def openForVisualAlignment (_s : BookViewState) (book : Book)
    (fetchResult : Except Unit (List ChapterItem)) : BookViewState :=
  let s1 : BookViewState :=
    { isOpen := true, book := some book, currentPage := jsOrZero book.alignment_offset }
  match fetchResult with
  | Except.ok [] => { s1 with currentPage := 0 }
  | Except.ok (c :: _) =>
      { s1 with currentPage := c.start_page_number + jsOrZero book.alignment_offset }
  | Except.error _ => { s1 with currentPage := jsOrZero book.alignment_offset }

/-- Legacy call site `handleVisualAlign` in `BooksPage.tsx`: the settled
value of `bookViewPage`. It starts at `book.alignment_offset || 0`, then on
success with chapters sets `start + (alignment_offset || 0)`, on success
with an empty list sets `0`, and in the `catch` branch sets `0`. -/
def handleVisualAlignPage (book : Book)
    (fetchResult : Except Unit (List ChapterItem)) : Int :=
  match fetchResult with
  | Except.ok [] => 0
  | Except.ok (c :: _) => c.start_page_number + jsOrZero book.alignment_offset
  | Except.error _ => 0

/-- Navigation-bounds component state of `BookView`: the three `useState`
cells `canGoPrevious`, `canGoNext`, `checkingPages`. -/
structure NavBounds where
  canGoPrevious : Bool
  canGoNext : Bool
  checkingPages : Bool
  deriving DecidableEq, Repr

/-- Initial values of the three `useState` cells:
`useState(false)`, `useState(true)`, `useState(false)`. -/
def initialNavBounds : NavBounds :=
  { canGoPrevious := false, canGoNext := true, checkingPages := false }

/-- `checkPageExists(pageNumber)`: attempts `bookApi.getPageImage`; any
transport failure is caught and maps to `false`. -/
def checkPageExists (getPageImage : Int → Option Unit) (pageNumber : Int) : Bool :=
  (getPageImage pageNumber).isSome

/-- One `setState` call performed by `checkNavigationAvailability`. -/
inductive NavAction where
  | setCanGoPrevious (b : Bool)
  | setCanGoNext (b : Bool)
  | setCheckingPages (b : Bool)
  deriving DecidableEq, Repr

/-- Effect of a single `setState` call on the component state. -/
def applyNavAction (s : NavBounds) : NavAction → NavBounds
  | NavAction.setCanGoPrevious b => { s with canGoPrevious := b }
  | NavAction.setCanGoNext b => { s with canGoNext := b }
  | NavAction.setCheckingPages b => { s with checkingPages := b }

/-- Run a sequence of `setState` calls in order. -/
def runNavActions (s : NavBounds) (acts : List NavAction) : NavBounds :=
  acts.foldl applyNavAction s

/-- `checkNavigationAvailability` for the page captured by the effect
closure: the ordered list of `setState` calls one invocation performs.
The closure applies each probe result unconditionally — it never compares
its captured page against the session's current page before writing. -/
def checkNavigationAvailability (getPageImage : Int → Option Unit)
    (currentPage : Int) : List NavAction :=
  [ NavAction.setCheckingPages true,
    NavAction.setCanGoPrevious
      (if 0 < currentPage then checkPageExists getPageImage (currentPage - 1) else false),
    NavAction.setCanGoNext (checkPageExists getPageImage (currentPage + 1)),
    NavAction.setCheckingPages false ]

/-- `handleNext5Pages`: unconditional `setPage(currentPage + 5)`. -/
def handleNext5Pages (currentPage : Int) : Int :=
  currentPage + 5

/-- `handlePrevious5Pages`: `newPage = Math.max(0, currentPage - 5)`;
`setPage` is called only when `newPage !== currentPage`
(`some p` = `setPage(p)` called, `none` = no call). -/
def handlePrevious5Pages (currentPage : Int) : Option Int :=
  let newPage := max 0 (currentPage - 5)
  if newPage ≠ currentPage then some newPage else none

/-- A click on the +5 button: the button carries
`disabled={!canGoNext || checkingPages}`, so the handler only fires when
`canGoNext` is true and no probe is in flight. -/
def next5ButtonClick (s : NavBounds) (currentPage : Int) : Int :=
  if s.canGoNext && !s.checkingPages then handleNext5Pages currentPage else currentPage

/-- A click on the -5 button: the button carries
`disabled={!canGoPrevious || checkingPages}`, so the handler only fires
when `canGoPrevious` is true and no probe is in flight. -/
def previous5ButtonClick (s : NavBounds) (currentPage : Int) : Int :=
  if s.canGoPrevious && !s.checkingPages then
    match handlePrevious5Pages currentPage with
    | some p => p
    | none => currentPage
  else currentPage

/-- The `EDIT_BOOK` modal payload read by `handleConfirm`. -/
structure ModalBookData where
  book : Book
  isNew : Bool
  deriving DecidableEq, Repr

/-- Observable outcome of one `handleConfirm` run: the popup visibility
after the run, the argument of the `updateBook` call if one was made, the
argument of the `openModal` call if one was made, and the store state
after the unconditional trailing `close()`. -/
structure ConfirmResult where
  isConfirmPopupVisible : Bool
  updateBookCall : Option Book
  openModalCall : Option ModalBookData
  sessionState : BookViewState
  deriving DecidableEq, Repr

/-- `handleConfirm` of `BookView`: hides the popup, then — only when
`isVisualAlignmentMode && book` — fetches chapters; on success with a
non-empty list and present edit-modal data it computes
`alignmentOffset = currentPage - chapters[0].start_page_number`, calls
`updateBook` with the modal's book updated to that offset and re-opens the
modal with it; any fetch error is only logged. `close()` runs
unconditionally at the end. -/
def handleConfirm (isVisualAlignmentMode : Bool) (s : BookViewState)
    (fetchResult : Except Unit (List ChapterItem))
    (editModalData : Option ModalBookData) : ConfirmResult :=
  if isVisualAlignmentMode && s.book.isSome then
    match fetchResult with
    | Except.ok (c :: _) =>
        match editModalData with
        | some d =>
            let alignmentOffset := s.currentPage - c.start_page_number
            let updatedBook := { d.book with alignment_offset := some alignmentOffset }
            { isConfirmPopupVisible := false,
              updateBookCall := some updatedBook,
              openModalCall := some { book := updatedBook, isNew := d.isNew },
              sessionState := close s }
        | none =>
            { isConfirmPopupVisible := false, updateBookCall := none,
              openModalCall := none, sessionState := close s }
    | Except.ok [] =>
        { isConfirmPopupVisible := false, updateBookCall := none,
          openModalCall := none, sessionState := close s }
    | Except.error _ =>
        { isConfirmPopupVisible := false, updateBookCall := none,
          openModalCall := none, sessionState := close s }
  else
    { isConfirmPopupVisible := false, updateBookCall := none,
      openModalCall := none, sessionState := close s }

/-- Concrete page-image transport for the staleness counterexample: every
page exists except page 11. -/
def staleProbe : Int → Option Unit :=
  fun n => if n = 11 then none else some ()

/-- Concrete page-image transport for the bounds scenario: the probe for
page 9 fails (transport error), every other probe succeeds. -/
def scenarioProbe : Int → Option Unit :=
  fun n => if n = 9 then none else some ()

/-- C9: `close()` is idempotent and total: a second `close()` is a no-op
(the state is already the closed state `isOpen = false`, `book = none`,
`currentPage = 0`), and closing the initial (already closed) state leaves
it unchanged. -/
theorem c9_close_idempotent :
    ∀ s : BookViewState,
      close (close s) = close s
      ∧ (close s).isOpen = false
      ∧ (close s).book = none
      ∧ (close s).currentPage = 0
      ∧ close initialBookViewState = initialBookViewState := by
  intro s
  refine ⟨rfl, rfl, rfl, rfl, rfl⟩

/-- C10: the stored viewer-session state has exactly the fields `isOpen`,
`book`, `currentPage` (no alignment-mode or awaiting-confirmation flag),
and for every book and every settled chapter-fetch outcome,
`openForVisualAlignment` leaves the store in exactly the state reached by
plain `open(book)` followed by `setPage` of the same page. -/
theorem c10_visual_alignment_state_refines_plain_open :
    ∀ (s : BookViewState) (b : Book) (r : Except Unit (List ChapterItem)),
      openForVisualAlignment s b r
        = setPage (openBookView s b) (openForVisualAlignment s b r).currentPage
      ∧ ∀ st : BookViewState,
          st = { isOpen := st.isOpen, book := st.book, currentPage := st.currentPage } := by
  intro s b r
  refine ⟨?_, fun _ => rfl⟩
  match r with
  | Except.ok [] => rfl
  | Except.ok (c :: rest) => rfl
  | Except.error e => rfl

/-- C4: for every book with `alignment_offset = k` whose chapter fetch
succeeds with a non-empty list whose first chapter starts at raw page
`c.start_page_number`, both the store's `openForVisualAlignment` and the
legacy `BooksPage` call site set the initial page to
`start_page_number + k`. -/
theorem c4_initial_page_first_chapter_plus_offset :
    ∀ (s : BookViewState) (bid : Nat) (nm au : Option String) (tp : Option Nat)
      (k : Int) (c : ChapterItem) (rest : List ChapterItem),
      (openForVisualAlignment s
          { book_id := bid, book_name := nm, book_author := au,
            total_pages := tp, alignment_offset := some k }
          (Except.ok (c :: rest))).currentPage
        = c.start_page_number + k
      ∧ handleVisualAlignPage
          { book_id := bid, book_name := nm, book_author := au,
            total_pages := tp, alignment_offset := some k }
          (Except.ok (c :: rest))
        = c.start_page_number + k := by
  intro s bid nm au tp k c rest
  constructor
  · show c.start_page_number + jsOrZero (some k) = c.start_page_number + k
    rw [jsOrZero_some]
  · show c.start_page_number + jsOrZero (some k) = c.start_page_number + k
    rw [jsOrZero_some]

/-- C3 counterexample: the claim says a failed chapter fetch leaves the
initial page at the stored offset `k`; at the `BooksPage.handleVisualAlign`
call site with `alignment_offset = 7` and a failed fetch, the settled page
is `0`, not `7`. -/
theorem c3_bookspage_fetch_failure_zero_cex :
    handleVisualAlignPage { book_id := 1, alignment_offset := some 7 } (Except.error ()) = 0
    ∧ (0 : Int) ≠ 7 := by
  refine ⟨rfl, by decide⟩

/-- C3 amended: the store's `openForVisualAlignment` distinguishes the two
no-chapter-data modes — a successful fetch with an empty chapter list
settles at page `0` while a failed fetch settles at `k` (`0` when the
offset is absent) — but the legacy `BooksPage.handleVisualAlign` call site
collapses both modes to `0`: on a failed fetch it settles at `0` even when
an offset `k` is stored. -/
theorem c3_initial_page_fallbacks :
    ∀ (s : BookViewState) (bid : Nat) (nm au : Option String) (tp : Option Nat) (k : Int),
      (openForVisualAlignment s
          { book_id := bid, book_name := nm, book_author := au,
            total_pages := tp, alignment_offset := some k }
          (Except.ok [])).currentPage = 0
      ∧ (openForVisualAlignment s
          { book_id := bid, book_name := nm, book_author := au,
            total_pages := tp, alignment_offset := some k }
          (Except.error ())).currentPage = k
      ∧ (openForVisualAlignment s
          { book_id := bid, book_name := nm, book_author := au,
            total_pages := tp, alignment_offset := none }
          (Except.error ())).currentPage = 0
      ∧ handleVisualAlignPage
          { book_id := bid, book_name := nm, book_author := au,
            total_pages := tp, alignment_offset := some k }
          (Except.ok []) = 0
      ∧ handleVisualAlignPage
          { book_id := bid, book_name := nm, book_author := au,
            total_pages := tp, alignment_offset := some k }
          (Except.error ()) = 0 := by
  intro s bid nm au tp k
  refine ⟨rfl, ?_, rfl, rfl, rfl⟩
  show jsOrZero (some k) = k
  exact jsOrZero_some k

/-- C5: on confirmation in visual-alignment mode (chapter fetch succeeds,
edit-modal data present), the book passed to `updateBook` carries
`alignment_offset = currentPage - chapters[0].start_page_number`, with no
clamping; and in the concrete scenario — stored offset `10`, first chapter
at raw page `20` — opening for visual alignment lands on page `30`, and
confirming after navigating to page `33` persists offset `13`. -/
theorem c5_confirm_offset_is_difference :
    ∀ (b cur : Book) (page : Int) (c : ChapterItem) (rest : List ChapterItem) (isNew : Bool),
      (handleConfirm true { isOpen := true, book := some b, currentPage := page }
          (Except.ok (c :: rest)) (some { book := cur, isNew := isNew })).updateBookCall
        = some { cur with alignment_offset := some (page - c.start_page_number) }
      ∧ (openForVisualAlignment initialBookViewState
          { book_id := 1, alignment_offset := some 10 }
          (Except.ok [{ start_page_number := 20 }])).currentPage = 30
      ∧ (handleConfirm true
          (setPage
            (openForVisualAlignment initialBookViewState
              { book_id := 1, alignment_offset := some 10 }
              (Except.ok [{ start_page_number := 20 }]))
            33)
          (Except.ok [{ start_page_number := 20 }])
          (some { book := { book_id := 1, alignment_offset := some 10 }, isNew := false })).updateBookCall
        = some { book_id := 1, alignment_offset := some 13 } := by
  intro b cur page c rest isNew
  refine ⟨rfl, by decide, by decide⟩

/-- C2 counterexample: the claim says that when the chapter fetch fails
during `confirm()` the session remains open with the confirmation
affordance still up; in the code, with a session open in visual-alignment
mode at page `30`, a failed fetch leaves the session closed
(`isOpen = false`) and the popup hidden. -/
theorem c2_confirm_failure_closes_session_cex :
    (handleConfirm true
        { isOpen := true, book := some { book_id := 1, alignment_offset := some 10 },
          currentPage := 30 }
        (Except.error ())
        (some { book := { book_id := 1, alignment_offset := some 10 }, isNew := false })).sessionState.isOpen
      = false
    ∧ (handleConfirm true
        { isOpen := true, book := some { book_id := 1, alignment_offset := some 10 },
          currentPage := 30 }
        (Except.error ())
        (some { book := { book_id := 1, alignment_offset := some 10 }, isNew := false })).isConfirmPopupVisible
      = false := by
  refine ⟨rfl, rfl⟩

/-- C2 amended: when the chapter fetch fails during `confirm()`, no call
is made to `updateBook` or `openModal` (the stored offset is untouched),
but the session does not stay open for a retry: `close()` runs
unconditionally, leaving the closed state, and the confirmation popup is
hidden before the fetch. -/
theorem c2_confirm_failure_no_persist_but_closes :
    ∀ (flag : Bool) (s : BookViewState) (d : Option ModalBookData),
      (handleConfirm flag s (Except.error ()) d).updateBookCall = none
      ∧ (handleConfirm flag s (Except.error ()) d).openModalCall = none
      ∧ (handleConfirm flag s (Except.error ()) d).sessionState = close s
      ∧ (handleConfirm flag s (Except.error ()) d).sessionState.isOpen = false
      ∧ (handleConfirm flag s (Except.error ()) d).isConfirmPopupVisible = false := by
  intro flag s d
  by_cases h : (flag && s.book.isSome) = true <;>
    simp [handleConfirm, h, close]

/-- C8: after a bounds recomputation, from any prior component state,
`canGoPrevious` is true iff `currentPage > 0` and the probe for
`currentPage - 1` succeeds (false at page 0 without probing), `canGoNext`
is true iff the probe for `currentPage + 1` succeeds, a failed transport
call counts as "page does not exist" rather than an error, and probing is
no longer flagged; in the concrete scenario — probe for page 7 succeeds,
probe for page 9 fails, `currentPage = 8` — the result is
`canGoPrevious = true`, `canGoNext = false`. -/
theorem c8_bounds_from_independent_probes :
    ∀ (g : Int → Option Unit) (p : Int) (s : NavBounds),
      (runNavActions s (checkNavigationAvailability g p)).canGoPrevious
        = (decide (0 < p) && (g (p - 1)).isSome)
      ∧ (runNavActions s (checkNavigationAvailability g p)).canGoNext = (g (p + 1)).isSome
      ∧ (runNavActions s (checkNavigationAvailability g p)).checkingPages = false
      ∧ (runNavActions initialNavBounds (checkNavigationAvailability scenarioProbe 8)).canGoPrevious
        = true
      ∧ (runNavActions initialNavBounds (checkNavigationAvailability scenarioProbe 8)).canGoNext
        = false := by
  intro g p s
  refine ⟨?_, rfl, rfl, by decide, by decide⟩
  by_cases h : 0 < p <;>
    simp [runNavActions, checkNavigationAvailability, applyNavAction, checkPageExists, h]

/-- C1 counterexample: a probe cycle issued while `currentPage = 5` whose
results arrive after `currentPage` has changed to `10` and the page-10
cycle has completed still overwrites the bounds: with a transport where
page 11 does not exist (so the page-10 cycle sets `canGoNext = false`),
the late page-5 writes leave `canGoNext = true` — the stale result is
applied, not dropped. -/
theorem c1_stale_probe_overwrites_bounds_cex :
    (runNavActions initialNavBounds
        ((checkNavigationAvailability staleProbe 5).take 1
          ++ checkNavigationAvailability staleProbe 10
          ++ (checkNavigationAvailability staleProbe 5).drop 1)).canGoNext = true
    ∧ (runNavActions initialNavBounds (checkNavigationAvailability staleProbe 10)).canGoNext
      = false := by
  refine ⟨by decide, by decide⟩

/-- C1 amended: `checkNavigationAvailability` carries no staleness guard —
its `setState` calls never compare the page they were issued for with the
session's current page — so whenever the remaining writes of an in-flight
cycle for `stale` land after the cycle for `cur` has finished, the final
bounds are exactly those a clean recomputation for `stale` would produce:
completion order wins, not the current page value. -/
theorem c1_last_completed_probe_wins :
    ∀ (g : Int → Option Unit) (stale cur : Int) (s : NavBounds),
      runNavActions s
          (checkNavigationAvailability g cur ++ (checkNavigationAvailability g stale).drop 1)
        = runNavActions s (checkNavigationAvailability g stale) := by
  intro g stale cur s
  rfl

/-- C6 counterexample: the claim says a +5 jump changes `currentPage` by
exactly `+5` regardless of the last known `canGoNext`; in the code the +5
button is disabled when `canGoNext` is false, so with
`canGoNext = false` and `currentPage = 0` a click leaves the page at `0`,
not `5`. -/
theorem c6_next5_gated_cex :
    next5ButtonClick
        { canGoPrevious := false, canGoNext := false, checkingPages := false } 0 = 0
    ∧ (0 : Int) ≠ 0 + 5 := by
  refine ⟨rfl, by decide⟩

/-- C6 amended: the handler `handleNext5Pages` itself always adds exactly
`5` with no clamp and no upfront existence check (validation is left to
the next probe cycle), but its only invocation path, the +5 button, is
disabled unless `canGoNext` was last known true and no probe is in
flight; a click changes the page by `+5` exactly in that case and is
otherwise ignored. -/
theorem c6_next5_unconditional_handler_gated_button :
    ∀ (p : Int) (prev : Bool),
      handleNext5Pages p = p + 5
      ∧ next5ButtonClick { canGoPrevious := prev, canGoNext := true, checkingPages := false } p
        = p + 5
      ∧ next5ButtonClick { canGoPrevious := prev, canGoNext := false, checkingPages := false } p
        = p
      ∧ next5ButtonClick { canGoPrevious := prev, canGoNext := true, checkingPages := true } p
        = p
      ∧ next5ButtonClick { canGoPrevious := prev, canGoNext := false, checkingPages := true } p
        = p := by
  intro p prev
  refine ⟨rfl, rfl, rfl, rfl, rfl⟩

/-- C7 counterexample: the claim says a -5 jump sets
`currentPage = max(0, currentPage - 5)` unconditionally, not gated on
`canGoPrevious`; in the code the -5 button is disabled when
`canGoPrevious` is false, so with `canGoPrevious = false` and
`currentPage = 7` a click leaves the page at `7`, not `2`. -/
theorem c7_previous5_gated_cex :
    previous5ButtonClick
        { canGoPrevious := false, canGoNext := true, checkingPages := false } 7 = 7
    ∧ (7 : Int) ≠ max 0 (7 - 5) := by
  refine ⟨rfl, by decide⟩

/-- C7 amended: when the -5 button is enabled (`canGoPrevious` last known
true, no probe in flight) a click lands on `max(0, currentPage - 5)` —
from page 3 it goes to 0, never -2 — and the handler skips the `setPage`
call when the clamped value equals the current page (no-op at page 0);
but the button is disabled while `canGoPrevious` is false or a probe is
in flight, so the jump is gated, not unconditional. -/
theorem c7_previous5_clamped_and_gated :
    ∀ (p : Int) (nxt : Bool),
      previous5ButtonClick { canGoPrevious := true, canGoNext := nxt, checkingPages := false } p
        = max 0 (p - 5)
      ∧ previous5ButtonClick { canGoPrevious := false, canGoNext := nxt, checkingPages := false } p
        = p
      ∧ previous5ButtonClick { canGoPrevious := true, canGoNext := nxt, checkingPages := true } p
        = p
      ∧ handlePrevious5Pages 3 = some 0
      ∧ handlePrevious5Pages 0 = none := by
  intro p nxt
  refine ⟨?_, rfl, rfl, by decide, by decide⟩
  by_cases h : max 0 (p - 5) = p <;>
    simp [previous5ButtonClick, handlePrevious5Pages, handleNext5Pages, h]
